import Mathlib

/-!
Verification development for the message-handling core of the avs-device-sdk
source tree: the `AttachmentManager` (attachment slot map with promise/future
handoff and TTL-based eviction, from `AttachmentManager.cpp`), the staged
directive-dispatch bookkeeping of the `CapabilityAgent` base class, and the
outbound event-envelope builder `buildJsonEventString` (both exercised by
`CapabilityAgentTest.cpp`).

Machine integers do not occur; times are natural numbers measured in minutes
(the granularity of `m_timeout`, which the C++ code reaches via
`duration_cast<minutes>`).  C++ futures/promises are modelled by an arena of
shared states: a future is an index into the arena, and the exceptional
behaviours of `std::promise` (`future_already_retrieved`,
`promise_already_satisfied`, `broken_promise`) are modelled with `Except`.
-/

set_option autoImplicit false

namespace AvsDeviceSdk

/-- A handle to a binary stream (`std::shared_ptr<std::iostream>`), kept
abstract as a token. -/
abbrev StreamHandle := Nat

/-- An attachment identifier. -/
abbrev AttachmentId := String

/-- Errors thrown by `std::promise` / `std::future` operations. -/
inductive FutureError where
  | futureAlreadyRetrieved
  | promiseAlreadySatisfied
  | brokenPromise
deriving DecidableEq, Repr

/-- The shared state behind a `std::promise` / `std::future` pair.
`value` is the stored stream handle once `set_value` has run; `broken` is set
when the promise is destroyed without a value; `futureRetrieved` records
whether `get_future` has already been called. -/
structure SharedState where
  value : Option StreamHandle
  broken : Bool
  futureRetrieved : Bool
deriving DecidableEq, Repr

/-- Association-list lookup, first match wins (the maps in the source have
unique keys). -/
def assocFind {α : Type} : List (String × α) → String → Option α
  | [], _ => none
  | (k, v) :: rest, key => if k = key then some v else assocFind rest key

/-- Association-list erase of every entry bearing the key (with unique keys
this is `std::map::erase(key)`). -/
def assocErase {α : Type} : List (String × α) → String → List (String × α)
  | [], _ => []
  | (k, v) :: rest, key =>
      if k = key then assocErase rest key else (k, v) :: assocErase rest key

/-- State of the `AttachmentManager`: the configured TTL (`m_timeout`, minutes), the
slot map `m_attachments` (attachment id to promise arena index), the
time-ordered eviction index `m_timeStamps` (a multimap sorted oldest creation
time first), and the arena of promise shared states. -/
structure AttachmentManager where
  m_timeout : Nat
  m_attachments : List (AttachmentId × Nat)
  m_timeStamps : List (Nat × AttachmentId)
  sharedStates : List SharedState
deriving DecidableEq, Repr

/-- A freshly constructed `AttachmentManager(timeout)`. -/
def freshAttachmentManager (timeout : Nat) : AttachmentManager :=
  ⟨timeout, [], [], []⟩

/-- Model of `AttachmentManager::createAttachmentPromiseHelperLocked`: create the
promise for `attachmentId` if the map has none.  Also returns the arena index
of the id's promise, since in the C++ every caller immediately looks the same
entry up again with `m_attachments[attachmentId]`. -/
def createAttachmentPromiseHelperLocked (am : AttachmentManager)
    (attachmentId : AttachmentId) : AttachmentManager × Nat :=
  match assocFind am.m_attachments attachmentId with
  | some idx => (am, idx)
  | none =>
      ({ am with
          m_attachments := am.m_attachments ++ [(attachmentId, am.sharedStates.length)],
          sharedStates := am.sharedStates ++ [⟨none, false, false⟩] },
        am.sharedStates.length)

/-- Model of `AttachmentManager::createAttachmentReader`: ensure the slot exists and
call `get_future` on its promise.  `get_future` throws
`future_already_retrieved` when called a second time on the same promise;
otherwise the returned future is the promise's arena index. -/
def createAttachmentReader (am : AttachmentManager) (attachmentId : AttachmentId) :
    AttachmentManager × Except FutureError Nat :=
  let p := createAttachmentPromiseHelperLocked am attachmentId
  match p.1.sharedStates[p.2]? with
  | none => (p.1, Except.error FutureError.brokenPromise)
  | some st =>
      if st.futureRetrieved then (p.1, Except.error FutureError.futureAlreadyRetrieved)
      else
        ({ p.1 with sharedStates := p.1.sharedStates.set p.2 { st with futureRetrieved := true } },
          Except.ok p.2)

/-- Destroying a `std::promise` whose value was never set marks its shared
state broken (waiting futures then observe `broken_promise`); if the value was
already set the state keeps the value for its future. -/
def destroyPromiseAt (states : List SharedState) (i : Nat) : List SharedState :=
  match states[i]? with
  | none => states
  | some st =>
      if st.value.isNone then states.set i { st with broken := true } else states

/-- Model of `m_attachments.erase(attachmentId)`: removing the map entry destroys the
promise it held. -/
def eraseAttachmentEntry (am : AttachmentManager) (attachmentId : AttachmentId) :
    AttachmentManager :=
  match assocFind am.m_attachments attachmentId with
  | none => am
  | some idx =>
      { am with
          m_attachments := assocErase am.m_attachments attachmentId,
          sharedStates := destroyPromiseAt am.sharedStates idx }

/-- Model of `m_timeStamps.insert(std::make_pair(currentTime, attachmentId))`: a
`std::multimap` insert places the new pair at the upper bound of its
equal-key range. -/
def insertTimeStamp : List (Nat × AttachmentId) → Nat → AttachmentId →
    List (Nat × AttachmentId)
  | [], t, aid => [(t, aid)]
  | (t0, a0) :: rest, t, aid =>
      if t < t0 then (t, aid) :: (t0, a0) :: rest
      else (t0, a0) :: insertTimeStamp rest t aid

/-- The eviction loop of `AttachmentManager::createAttachment`: walk the
time-ordered index from the oldest entry; while the age reaches the timeout,
evict; at the first younger entry, break.  Returns the remaining index and the
ids evicted, in eviction order. -/
def scanTimeStamps (currentTime timeout : Nat) :
    List (Nat × AttachmentId) → List (Nat × AttachmentId) × List AttachmentId
  | [] => ([], [])
  | (t, aid) :: rest =>
      if timeout ≤ currentTime - t then
        let p := scanTimeStamps currentTime timeout rest
        (p.1, aid :: p.2)
      else ((t, aid) :: rest, [])

/-- The middle section of `AttachmentManager::createAttachment`: record the
creation timestamp for `attachmentId` and run the eviction loop (each evicted
entry is erased from both the map and the index; the loop breaks at the first
entry within the timeout). -/
def recordAndEvict (am : AttachmentManager) (attachmentId : AttachmentId)
    (currentTime : Nat) : AttachmentManager :=
  let scanned := scanTimeStamps currentTime am.m_timeout
    (insertTimeStamp am.m_timeStamps currentTime attachmentId)
  scanned.2.foldl eraseAttachmentEntry { am with m_timeStamps := scanned.1 }

/-- Model of `AttachmentManager::createAttachment`: ensure the slot exists, record the
creation timestamp, run the eviction scan, then — if the slot survived the
scan — `set_value` on its promise.  `set_value` throws
`promise_already_satisfied` when the promise already holds a value. -/
def createAttachment (am : AttachmentManager) (attachmentId : AttachmentId)
    (attachment : StreamHandle) (currentTime : Nat) :
    AttachmentManager × Except FutureError Unit :=
  let am3 := recordAndEvict (createAttachmentPromiseHelperLocked am attachmentId).1
    attachmentId currentTime
  match assocFind am3.m_attachments attachmentId with
  | none => (am3, Except.ok ())
  | some idx =>
      match am3.sharedStates[idx]? with
      | none => (am3, Except.ok ())
      | some st =>
          match st.value with
          | some _ => (am3, Except.error FutureError.promiseAlreadySatisfied)
          | none =>
              ({ am3 with
                  sharedStates := am3.sharedStates.set idx { st with value := some attachment } },
                Except.ok ())

/-- Model of `AttachmentManager::releaseAttachment`: erase the slot from the map,
whatever its state. -/
def releaseAttachment (am : AttachmentManager) (attachmentId : AttachmentId) :
    AttachmentManager :=
  eraseAttachmentEntry am attachmentId

/-- What a consumer holding future `i` observes. -/
inductive FutureStatus where
  | waiting
  | resolved (data : StreamHandle)
  | failed
deriving DecidableEq, Repr

/-- Observe future `i`: a stored value resolves; a broken promise fails
(`broken_promise`); otherwise the consumer is still waiting. -/
def readFuture (am : AttachmentManager) (i : Nat) : FutureStatus :=
  match am.sharedStates[i]? with
  | none => FutureStatus.waiting
  | some st =>
      match st.value with
      | some d => FutureStatus.resolved d
      | none => if st.broken then FutureStatus.failed else FutureStatus.waiting

/-- The fulfilled value (if any) behind arena index `i`. -/
def fulfilledValueAt (am : AttachmentManager) (i : Nat) : Option StreamHandle :=
  am.sharedStates[i]?.bind SharedState.value

/-- A lifecycle call observed by the capability-agent handler (the mock agent
in `CapabilityAgentTest.cpp` records which of these fired). -/
inductive FunctionCalled where
  | handleDirectiveImmediatelyCall
  | preHandleDirectiveCall
  | handleDirectiveCall
  | cancelDirectiveCall
deriving DecidableEq, Repr

/-- A directive, reduced to the fields the staged-dispatch bookkeeping uses. -/
structure Directive where
  messageId : String
  payload : String
deriving DecidableEq, Repr

/-- Modelled from the spec: the staged-dispatch bookkeeping of the
`CapabilityAgent` base class (its implementation file is missing from this
source tree; only `CapabilityAgentTest.cpp` exercising it is present).
`directiveMap` holds the pre-handled directives keyed by message-id
(the spec's per-directive lifecycle records); `handlerCalls` is the
handler-observable trace of lifecycle invocations. -/
structure CapabilityAgent where
  directiveMap : List (String × Directive)
  handlerCalls : List FunctionCalled
deriving DecidableEq, Repr

/-- A freshly constructed capability agent: nothing pre-handled, no lifecycle
call observed. -/
def initialAgent : CapabilityAgent := ⟨[], []⟩

/-- Modelled from the spec: `CapabilityAgent::preHandleDirective` stores a
lifecycle record for the directive's message-id and invokes the handler's
pre-handle logic. -/
def CapabilityAgent.preHandleDirective (ca : CapabilityAgent) (d : Directive) :
    CapabilityAgent :=
  { ca with
      directiveMap := (d.messageId, d) :: ca.directiveMap,
      handlerCalls := ca.handlerCalls ++ [FunctionCalled.preHandleDirectiveCall] }

/-- Modelled from the spec: `CapabilityAgent::handleDirective(messageId)`
returns `true` and invokes the handler's handle logic when a pre-handled
record bearing that message-id exists; otherwise it returns `false` and
invokes nothing. -/
def CapabilityAgent.handleDirective (ca : CapabilityAgent) (messageId : String) :
    CapabilityAgent × Bool :=
  match assocFind ca.directiveMap messageId with
  | none => (ca, false)
  | some _ =>
      ({ ca with handlerCalls := ca.handlerCalls ++ [FunctionCalled.handleDirectiveCall] },
        true)

/-- Modelled from the spec: `CapabilityAgent::cancelDirective(messageId)`
invokes the handler's cancel logic and removes the lifecycle record when a
pre-handled record bearing that message-id exists; otherwise it is a no-op. -/
def CapabilityAgent.cancelDirective (ca : CapabilityAgent) (messageId : String) :
    CapabilityAgent :=
  match assocFind ca.directiveMap messageId with
  | none => ca
  | some _ =>
      { ca with
          directiveMap := assocErase ca.directiveMap messageId,
          handlerCalls := ca.handlerCalls ++ [FunctionCalled.cancelDirectiveCall] }

/-- One staged-dispatch call made against the agent. -/
inductive AgentOp where
  | prehandleOp (d : Directive)
  | handleOp (messageId : String)
  | cancelOp (messageId : String)
deriving DecidableEq, Repr

/-- Apply one staged-dispatch call (the Boolean result of a handle call is
dropped when sequencing). -/
def applyAgentOp (ca : CapabilityAgent) : AgentOp → CapabilityAgent
  | AgentOp.prehandleOp d => ca.preHandleDirective d
  | AgentOp.handleOp m => (ca.handleDirective m).1
  | AgentOp.cancelOp m => ca.cancelDirective m

/-- Run a sequence of staged-dispatch calls. -/
def runAgentOps : CapabilityAgent → List AgentOp → CapabilityAgent
  | ca, [] => ca
  | ca, op :: ops => runAgentOps (applyAgentOp ca op) ops

/-- Whether the call sequence contains a `preHandleDirective` for message-id
`m`. -/
def hasPrehandleFor (m : String) : List AgentOp → Bool
  | [] => false
  | AgentOp.prehandleOp d :: ops => (d.messageId == m) || hasPrehandleFor m ops
  | AgentOp.handleOp _ :: ops => hasPrehandleFor m ops
  | AgentOp.cancelOp _ :: ops => hasPrehandleFor m ops

/-- Whether the call sequence contains a `cancelDirective` for message-id
`m`. -/
def hasCancelFor (m : String) : List AgentOp → Bool
  | [] => false
  | AgentOp.prehandleOp _ :: ops => hasCancelFor m ops
  | AgentOp.handleOp _ :: ops => hasCancelFor m ops
  | AgentOp.cancelOp m2 :: ops => (m2 == m) || hasCancelFor m ops

/- Event-envelope builder.  The string constants below are the test vectors of
`CapabilityAgentTest.cpp`, written as the same concatenations the C++ file
uses (a literal brace inside a string is written with its hex escape). -/

/-- Constant `MESSAGE_ID_TEST` from `CapabilityAgentTest.cpp`. -/
def MESSAGE_ID_TEST : String := "MessageId_Test"

/-- Constant `DIALOG_REQUEST_ID_TEST` from `CapabilityAgentTest.cpp`. -/
def DIALOG_REQUEST_ID_TEST : String := "DialogRequestId_Test"

/-- Constant `NAMESPACE_SPEECH_RECOGNIZER` from `CapabilityAgentTest.cpp`. -/
def NAMESPACE_SPEECH_RECOGNIZER : String := "SpeechRecognizer"

/-- Constant `NAME_RECOGNIZE` from `CapabilityAgentTest.cpp`. -/
def NAME_RECOGNIZE : String := "Recognize"

/-- Constant `PAYLOAD_SPEECH_RECOGNIZER` from `CapabilityAgentTest.cpp`. -/
def PAYLOAD_SPEECH_RECOGNIZER : String :=
  "\x7b\"profile\":\"CLOSE_TALK\",\"format\":\"AUDIO_L16_RATE_16000_CHANNELS_1\"\x7d"

/-- Constant `CONTEXT_TEST` from `CapabilityAgentTest.cpp`. -/
def CONTEXT_TEST : String :=
  "\x7b\"context\":[\x7b\"header\":\x7b\"namespace\":\"SpeechSynthesizer\"," ++
  "\"name\":\"SpeechState\"\x7d,\"payload\":\x7b\"playerActivity\":\"FINISHED\"," ++
  "\"offsetInMilliseconds\":0,\"token\":\"\"\x7d\x7d]\x7d"

/-- The expected event string of `testEventWithDialogReqIdAndContext`. -/
def testEventWithDialogReqIdAndContext : String :=
  "\x7b\"context\":[\x7b\"header\":\x7b\"namespace\":\"SpeechSynthesizer\"," ++
  "\"name\":\"SpeechState\"\x7d,\"payload\":\x7b\"playerActivity\":\"FINISHED\"," ++
  "\"offsetInMilliseconds\":0,\"token\":\"\"\x7d\x7d]," ++
  "\"event\":\x7b\"header\":\x7b\"namespace\":\"SpeechRecognizer\"," ++
  "\"name\":\"Recognize\",\"messageId\":\"" ++ MESSAGE_ID_TEST ++
  "\",\"dialogRequestId\":\"" ++ DIALOG_REQUEST_ID_TEST ++
  "\"\x7d,\"payload\":\x7b\"profile\":\"CLOSE_TALK\"," ++
  "\"format\":\"AUDIO_L16_RATE_16000_CHANNELS_1\"\x7d\x7d\x7d"

/-- The expected event string of `testEventWithDialogReqIdNoContext`. -/
def testEventWithDialogReqIdNoContext : String :=
  "\x7b\"event\":\x7b\"header\":\x7b\"namespace\":\"SpeechRecognizer\"," ++
  "\"name\":\"Recognize\",\"messageId\":\"" ++ MESSAGE_ID_TEST ++
  "\",\"dialogRequestId\":\"" ++ DIALOG_REQUEST_ID_TEST ++
  "\"\x7d,\"payload\":\x7b\"profile\":\"CLOSE_TALK\"," ++
  "\"format\":\"AUDIO_L16_RATE_16000_CHANNELS_1\"\x7d\x7d\x7d"

/-- The expected event string of `testEventWithoutDialogReqIdOrContext`. -/
def testEventWithoutDialogReqIdOrContext : String :=
  "\x7b\"event\":\x7b\"header\":\x7b\"namespace\":\"SpeechRecognizer\"," ++
  "\"name\":\"Recognize\",\"messageId\":\"" ++ MESSAGE_ID_TEST ++
  "\"\x7d,\"payload\":\x7b\"profile\":\"CLOSE_TALK\"," ++
  "\"format\":\"AUDIO_L16_RATE_16000_CHANNELS_1\"\x7d\x7d\x7d"

/-- The expected event string of `testEventWithContextAndNoDialogReqId`. -/
def testEventWithContextAndNoDialogReqId : String :=
  "\x7b\"context\":[\x7b\"header\":\x7b\"namespace\":\"SpeechSynthesizer\"," ++
  "\"name\":\"SpeechState\"\x7d,\"payload\":\x7b\"playerActivity\":\"FINISHED\"," ++
  "\"offsetInMilliseconds\":0,\"token\":\"\"\x7d\x7d]," ++
  "\"event\":\x7b\"header\":\x7b\"namespace\":\"SpeechRecognizer\"," ++
  "\"name\":\"Recognize\",\"messageId\":\"" ++ MESSAGE_ID_TEST ++
  "\"\x7d,\"payload\":\x7b\"profile\":\"CLOSE_TALK\"," ++
  "\"format\":\"AUDIO_L16_RATE_16000_CHANNELS_1\"\x7d\x7d\x7d"

/-- Modelled from the spec: `CapabilityAgent::buildJsonEventString` (missing
from this source tree; only its test vectors are present).  Builds the
envelope for a given message-id: the header carries namespace, event name and
message-id, the `dialogRequestId` field is appended only when the
dialog-request-id is non-empty, and the context section (the supplied context
object with its closing brace dropped, followed by a comma) is prepended only
when the context is non-empty. -/
def buildJsonEventString (nsp eventName messageId dialogRequestId jsonPayload
    jsonContext : String) : String :=
  let header :=
    "\"namespace\":\"" ++ nsp ++ "\",\"name\":\"" ++ eventName ++
      "\",\"messageId\":\"" ++ messageId ++ "\"" ++
      (if dialogRequestId = "" then ""
       else ",\"dialogRequestId\":\"" ++ dialogRequestId ++ "\"")
  let eventPart :=
    "\"event\":\x7b\"header\":\x7b" ++ header ++ "\x7d,\"payload\":" ++
      jsonPayload ++ "\x7d"
  (if jsonContext = "" then "\x7b" else String.dropRight jsonContext 1 ++ ",") ++
    eventPart ++ "\x7d"

/-- Modelled from the spec: a fresh message-id is generated on every
`buildJsonEventString` call, by "any universally-unique token scheme"; the
token source is modelled as a counter, the `n`-th token being a string whose
length encodes `n`.  Returns the new id together with the advanced counter. -/
def generateMessageId (seed : Nat) : String × Nat :=
  (String.mk (List.replicate (seed + 1) 'M'), seed + 1)

/-- The message-id produced by the `n`-th builder call after counter state
`seed` (each call advances the counter with `generateMessageId`). -/
def messageIdAtCall (seed : Nat) : Nat → String
  | 0 => (generateMessageId seed).1
  | n + 1 => messageIdAtCall (generateMessageId seed).2 n

/-! ### Association-list lemmas -/

theorem assocFind_erase {α : Type} (l : List (String × α)) (k m : String) :
    assocFind (assocErase l k) m = if m = k then none else assocFind l m := by
  induction l with
  | nil => by_cases hm : m = k <;> simp [assocErase, assocFind, hm]
  | cons p rest ih =>
      obtain ⟨k0, v0⟩ := p
      rw [assocErase]
      by_cases h0 : k0 = k
      · rw [if_pos h0, ih]
        by_cases hm : m = k
        · rw [if_pos hm, if_pos hm]
        · have hk0m : ¬ k0 = m := fun hc => hm (by rw [← hc, h0])
          rw [if_neg hm, if_neg hm, assocFind, if_neg hk0m]
      · rw [if_neg h0, assocFind]
        by_cases h0m : k0 = m
        · have hm : ¬ m = k := fun hc => h0 (by rw [h0m, hc])
          rw [if_pos h0m, if_neg hm, assocFind, if_pos h0m]
        · rw [if_neg h0m, ih]
          by_cases hm : m = k
          · rw [if_pos hm, if_pos hm]
          · rw [if_neg hm, if_neg hm, assocFind, if_neg h0m]

theorem assocFind_append_of_some {α : Type} (l l2 : List (String × α)) (k : String)
    (v : α) (h : assocFind l k = some v) : assocFind (l ++ l2) k = some v := by
  induction l with
  | nil => simp [assocFind] at h
  | cons p rest ih =>
      obtain ⟨k0, v0⟩ := p
      by_cases h0 : k0 = k
      · simpa [assocFind, h0] using h
      · simp [assocFind, h0] at h ⊢
        exact ih h

theorem assocFind_append_of_none {α : Type} (l l2 : List (String × α)) (k : String)
    (h : assocFind l k = none) : assocFind (l ++ l2) k = assocFind l2 k := by
  induction l with
  | nil => simp
  | cons p rest ih =>
      obtain ⟨k0, v0⟩ := p
      by_cases h0 : k0 = k
      · simp [assocFind, h0] at h
      · simp [assocFind, h0] at h ⊢
        exact ih h

/-! ### Capability-agent lemmas -/

theorem handleDirective_directiveMap (ca : CapabilityAgent) (m : String) :
    (ca.handleDirective m).1.directiveMap = ca.directiveMap := by
  unfold CapabilityAgent.handleDirective
  cases assocFind ca.directiveMap m <;> rfl

theorem cancelDirective_find_other (ca : CapabilityAgent) (m2 m : String)
    (hne : ¬ m = m2) :
    assocFind (ca.cancelDirective m2).directiveMap m = assocFind ca.directiveMap m := by
  unfold CapabilityAgent.cancelDirective
  cases hfind : assocFind ca.directiveMap m2 with
  | none => rfl
  | some d => simp [assocFind_erase, hne]

theorem cancelDirective_find_none (ca : CapabilityAgent) (m2 m : String)
    (h0 : assocFind ca.directiveMap m = none) :
    assocFind (ca.cancelDirective m2).directiveMap m = none := by
  by_cases hmm : m = m2
  · unfold CapabilityAgent.cancelDirective
    cases hfind : assocFind ca.directiveMap m2 with
    | none => exact h0
    | some d => simp [assocFind_erase, hmm]
  · rw [cancelDirective_find_other ca m2 m hmm]
    exact h0

/-- In a cancel-free (for `m`) call sequence, `m` has a lifecycle record after
the run exactly when the run contains a pre-handle for `m` or the record
already existed. -/
theorem assocFind_runAgentOps (m : String) (ops : List AgentOp) :
    ∀ ca : CapabilityAgent, hasCancelFor m ops = false →
      (assocFind (runAgentOps ca ops).directiveMap m).isSome =
        (hasPrehandleFor m ops || (assocFind ca.directiveMap m).isSome) := by
  induction ops with
  | nil => intro ca _; simp [runAgentOps, hasPrehandleFor]
  | cons op ops ih =>
      intro ca hnc
      cases op with
      | prehandleOp d =>
          have hnc2 : hasCancelFor m ops = false := by
            rw [hasCancelFor] at hnc; exact hnc
          have hstep := ih (ca.preHandleDirective d) hnc2
          rw [runAgentOps, applyAgentOp, hstep]
          by_cases hd : d.messageId = m
          · simp [CapabilityAgent.preHandleDirective, assocFind, hasPrehandleFor, hd]
          · have hbeq : (d.messageId == m) = false := by simp [hd]
            simp [CapabilityAgent.preHandleDirective, assocFind, hasPrehandleFor, hd, hbeq]
      | handleOp m2 =>
          have hnc2 : hasCancelFor m ops = false := by
            rw [hasCancelFor] at hnc; exact hnc
          have hstep := ih (applyAgentOp ca (AgentOp.handleOp m2)) hnc2
          rw [runAgentOps, hstep]
          rw [show applyAgentOp ca (AgentOp.handleOp m2) = (ca.handleDirective m2).1 from rfl]
          rw [handleDirective_directiveMap]
          simp [hasPrehandleFor]
      | cancelOp m2 =>
          rw [hasCancelFor] at hnc
          have hm2 : ¬ m2 = m := by
            intro hc
            simp [hc] at hnc
          have hnc2 : hasCancelFor m ops = false := by
            cases hor : hasCancelFor m ops with
            | false => rfl
            | true => rw [hor, Bool.or_true] at hnc; exact absurd hnc (by simp)
          have hstep := ih (applyAgentOp ca (AgentOp.cancelOp m2)) hnc2
          rw [runAgentOps, hstep]
          rw [show applyAgentOp ca (AgentOp.cancelOp m2) = ca.cancelDirective m2 from rfl]
          rw [cancelDirective_find_other ca m2 m (fun hc => hm2 hc.symm)]
          simp [hasPrehandleFor]

/-- Without a pre-handle for `m`, no lifecycle record for `m` ever appears. -/
theorem assocFind_runAgentOps_none (m : String) (ops : List AgentOp) :
    ∀ ca : CapabilityAgent, hasPrehandleFor m ops = false →
      assocFind ca.directiveMap m = none →
      assocFind (runAgentOps ca ops).directiveMap m = none := by
  induction ops with
  | nil => intro ca _ h0; simpa [runAgentOps] using h0
  | cons op ops ih =>
      intro ca hnp h0
      cases op with
      | prehandleOp d =>
          rw [hasPrehandleFor] at hnp
          have hd : ¬ d.messageId = m := by
            intro hc
            simp [hc] at hnp
          have hnp2 : hasPrehandleFor m ops = false := by
            cases hor : hasPrehandleFor m ops with
            | false => rfl
            | true => rw [hor, Bool.or_true] at hnp; exact absurd hnp (by simp)
          rw [runAgentOps]
          refine ih _ hnp2 ?_
          rw [show applyAgentOp ca (AgentOp.prehandleOp d) = ca.preHandleDirective d from rfl]
          show assocFind ((d.messageId, d) :: ca.directiveMap) m = none
          rw [assocFind, if_neg hd]
          exact h0
      | handleOp m2 =>
          have hnp2 : hasPrehandleFor m ops = false := by
            rw [hasPrehandleFor] at hnp; exact hnp
          rw [runAgentOps]
          refine ih _ hnp2 ?_
          rw [show applyAgentOp ca (AgentOp.handleOp m2) = (ca.handleDirective m2).1 from rfl]
          rw [handleDirective_directiveMap]
          exact h0
      | cancelOp m2 =>
          have hnp2 : hasPrehandleFor m ops = false := by
            rw [hasPrehandleFor] at hnp; exact hnp
          rw [runAgentOps]
          refine ih _ hnp2 ?_
          rw [show applyAgentOp ca (AgentOp.cancelOp m2) = ca.cancelDirective m2 from rfl]
          exact cancelDirective_find_none ca m2 m h0

/-! ### Claims C1 and C2 -/

/-- C1: in any cancel-free (for `m`) sequence of staged-dispatch calls,
`handleDirective(m)` returns `true` and invokes the handler's handle logic if
and only if a `preHandleDirective` for `m` was previously issued; when no
matching pre-handled directive exists, `handleDirective(m)` returns `false`
and leaves the agent (in particular the handler-observable call trace)
unchanged. -/
theorem handleDirective_true_iff_prehandled (ops : List AgentOp) (m : String)
    (hnc : hasCancelFor m ops = false) :
    ((((runAgentOps initialAgent ops).handleDirective m).2 = true ∧
        ((runAgentOps initialAgent ops).handleDirective m).1.handlerCalls =
          (runAgentOps initialAgent ops).handlerCalls ++
            [FunctionCalled.handleDirectiveCall]) ↔
      hasPrehandleFor m ops = true) ∧
    (hasPrehandleFor m ops = false →
      (runAgentOps initialAgent ops).handleDirective m =
        (runAgentOps initialAgent ops, false)) := by
  have hmain := assocFind_runAgentOps m ops initialAgent hnc
  rw [show assocFind initialAgent.directiveMap m = none from rfl] at hmain
  cases hfind : assocFind (runAgentOps initialAgent ops).directiveMap m with
  | none =>
      rw [hfind] at hmain
      have hnp : hasPrehandleFor m ops = false := by simpa using hmain.symm
      have hres : (runAgentOps initialAgent ops).handleDirective m =
          (runAgentOps initialAgent ops, false) := by
        unfold CapabilityAgent.handleDirective
        rw [hfind]
      constructor
      · rw [hres]
        simp [hnp]
      · intro _
        exact hres
  | some d =>
      rw [hfind] at hmain
      have hp : hasPrehandleFor m ops = true := by simpa using hmain.symm
      have hres : (runAgentOps initialAgent ops).handleDirective m =
          ({ runAgentOps initialAgent ops with
              handlerCalls := (runAgentOps initialAgent ops).handlerCalls ++
                [FunctionCalled.handleDirectiveCall] }, true) := by
        unfold CapabilityAgent.handleDirective
        rw [hfind]
      constructor
      · rw [hres]
        simp [hp]
      · intro hnp
        rw [hnp] at hp
        exact absurd hp (by simp)

/-- Witness for C1 at a concrete call sequence: after pre-handling the test
directive, handling its message-id succeeds and fires the handler. -/
theorem handleDirective_true_iff_prehandled_witness :
    hasCancelFor "MessageId_Test"
        [AgentOp.prehandleOp ⟨"MessageId_Test", "payload_Test"⟩] = false ∧
    (((((runAgentOps initialAgent
          [AgentOp.prehandleOp ⟨"MessageId_Test", "payload_Test"⟩]).handleDirective
            "MessageId_Test").2 = true ∧
        ((runAgentOps initialAgent
          [AgentOp.prehandleOp ⟨"MessageId_Test", "payload_Test"⟩]).handleDirective
            "MessageId_Test").1.handlerCalls =
          (runAgentOps initialAgent
            [AgentOp.prehandleOp ⟨"MessageId_Test", "payload_Test"⟩]).handlerCalls ++
              [FunctionCalled.handleDirectiveCall]) ↔
      hasPrehandleFor "MessageId_Test"
        [AgentOp.prehandleOp ⟨"MessageId_Test", "payload_Test"⟩] = true) ∧
    (hasPrehandleFor "MessageId_Test"
        [AgentOp.prehandleOp ⟨"MessageId_Test", "payload_Test"⟩] = false →
      (runAgentOps initialAgent
        [AgentOp.prehandleOp ⟨"MessageId_Test", "payload_Test"⟩]).handleDirective
          "MessageId_Test" =
        (runAgentOps initialAgent
          [AgentOp.prehandleOp ⟨"MessageId_Test", "payload_Test"⟩], false))) :=
  ⟨by decide, handleDirective_true_iff_prehandled _ _ (by decide)⟩

/-- C2: `cancelDirective(m)` with no prior `preHandleDirective(m)` in the call
sequence is a no-op: the agent state, including the handler-observable call
trace, is unchanged, so no lifecycle call fires. -/
theorem cancelDirective_noop_without_prehandle (ops : List AgentOp) (m : String)
    (hnp : hasPrehandleFor m ops = false) :
    (runAgentOps initialAgent ops).cancelDirective m = runAgentOps initialAgent ops := by
  have hfind := assocFind_runAgentOps_none m ops initialAgent hnp rfl
  unfold CapabilityAgent.cancelDirective
  rw [hfind]

/-- Witness for C2 at a concrete call sequence: a stray cancel for the test
message-id, after only a cancel for a different id, changes nothing. -/
theorem cancelDirective_noop_without_prehandle_witness :
    hasPrehandleFor "MessageId_Test" [AgentOp.cancelOp "OtherId"] = false ∧
    (runAgentOps initialAgent [AgentOp.cancelOp "OtherId"]).cancelDirective
        "MessageId_Test" =
      runAgentOps initialAgent [AgentOp.cancelOp "OtherId"] :=
  ⟨by decide, cancelDirective_noop_without_prehandle _ _ (by decide)⟩

/-! ### Claims C3, C4 and C5 -/

/-- C3: with a positive TTL, `createAttachmentReader(id)` then
`createAttachment(id, data)` and `createAttachment(id, data)` then
`createAttachmentReader(id)` reach the same manager state, the reader call
succeeds with the same future in both orders, and that future resolves to
`data` in both orders. -/
theorem attachment_fulfillment_commutes (aid : AttachmentId) (d t T : Nat)
    (hT : 0 < T) :
    (createAttachmentReader (freshAttachmentManager T) aid).2 = Except.ok 0 ∧
    (createAttachmentReader
        (createAttachment (freshAttachmentManager T) aid d t).1 aid).2 = Except.ok 0 ∧
    (createAttachment
        (createAttachmentReader (freshAttachmentManager T) aid).1 aid d t).1 =
      (createAttachmentReader
        (createAttachment (freshAttachmentManager T) aid d t).1 aid).1 ∧
    readFuture
      (createAttachment
        (createAttachmentReader (freshAttachmentManager T) aid).1 aid d t).1 0 =
      FutureStatus.resolved d ∧
    readFuture
      (createAttachmentReader
        (createAttachment (freshAttachmentManager T) aid d t).1 aid).1 0 =
      FutureStatus.resolved d := by
  have hr1 : createAttachmentReader (freshAttachmentManager T) aid =
      (⟨T, [(aid, 0)], [], [⟨none, false, true⟩]⟩, Except.ok 0) := by
    simp [createAttachmentReader, createAttachmentPromiseHelperLocked,
      freshAttachmentManager, assocFind]
  have hp1 : createAttachment
      (⟨T, [(aid, 0)], [], [⟨none, false, true⟩]⟩ : AttachmentManager) aid d t =
      (⟨T, [(aid, 0)], [(t, aid)], [⟨some d, false, true⟩]⟩, Except.ok ()) := by
    simp [createAttachment, recordAndEvict, createAttachmentPromiseHelperLocked, assocFind,
      insertTimeStamp, scanTimeStamps, Nat.sub_self, Nat.le_zero,
      Nat.pos_iff_ne_zero.mp hT]
  have hp2 : createAttachment (freshAttachmentManager T) aid d t =
      (⟨T, [(aid, 0)], [(t, aid)], [⟨some d, false, false⟩]⟩, Except.ok ()) := by
    simp [createAttachment, recordAndEvict, createAttachmentPromiseHelperLocked, assocFind,
      freshAttachmentManager, insertTimeStamp, scanTimeStamps, Nat.sub_self,
      Nat.le_zero, Nat.pos_iff_ne_zero.mp hT]
  have hr2 : createAttachmentReader
      (⟨T, [(aid, 0)], [(t, aid)], [⟨some d, false, false⟩]⟩ : AttachmentManager) aid =
      (⟨T, [(aid, 0)], [(t, aid)], [⟨some d, false, true⟩]⟩, Except.ok 0) := by
    simp [createAttachmentReader, createAttachmentPromiseHelperLocked, assocFind]
  rw [hr1, hp2]
  simp [hp1, hr2, readFuture]

/-- Witness for C3 at a concrete input. -/
theorem attachment_fulfillment_commutes_witness :
    0 < 1 ∧
    ((createAttachmentReader (freshAttachmentManager 1) "A1").2 = Except.ok 0 ∧
    (createAttachmentReader
        (createAttachment (freshAttachmentManager 1) "A1" 7 0).1 "A1").2 = Except.ok 0 ∧
    (createAttachment
        (createAttachmentReader (freshAttachmentManager 1) "A1").1 "A1" 7 0).1 =
      (createAttachmentReader
        (createAttachment (freshAttachmentManager 1) "A1" 7 0).1 "A1").1 ∧
    readFuture
      (createAttachment
        (createAttachmentReader (freshAttachmentManager 1) "A1").1 "A1" 7 0).1 0 =
      FutureStatus.resolved 7 ∧
    readFuture
      (createAttachmentReader
        (createAttachment (freshAttachmentManager 1) "A1" 7 0).1 "A1").1 0 =
      FutureStatus.resolved 7) :=
  ⟨by decide, attachment_fulfillment_commutes "A1" 7 0 1 (by decide)⟩

/-- C4 fails on the code: a second `createAttachment` on an already-fulfilled
slot is not a harmless no-op.  At the concrete input below the second call
raises `promise_already_satisfied` (in the C++, `std::promise::set_value` on
an already-satisfied promise throws `std::future_error`) and the manager state
is also changed (a second eviction timestamp is recorded). -/
theorem double_provide_not_noop_counterexample :
    (createAttachment
        (createAttachment (freshAttachmentManager 10) "A1" 5 0).1 "A1" 9 0).2 =
      Except.error FutureError.promiseAlreadySatisfied ∧
    (createAttachment
        (createAttachment (freshAttachmentManager 10) "A1" 5 0).1 "A1" 9 0).1 ≠
      (createAttachment (freshAttachmentManager 10) "A1" 5 0).1 := by
  constructor
  · rfl
  · decide

/-- C4 amended: a second `createAttachment` on an already-fulfilled slot does
not alter the stored data — the future still resolves to the first call's
data — but instead of being a silent no-op it raises
`promise_already_satisfied` (after recording a second eviction timestamp). -/
theorem double_provide_keeps_first_data (aid : AttachmentId) (d1 d2 t1 t2 T : Nat)
    (hT : 0 < T) (h12 : t1 ≤ t2) (hgap : t2 - t1 < T) :
    createAttachment
        (createAttachment (freshAttachmentManager T) aid d1 t1).1 aid d2 t2 =
      (⟨T, [(aid, 0)], [(t1, aid), (t2, aid)], [⟨some d1, false, false⟩]⟩,
        Except.error FutureError.promiseAlreadySatisfied) ∧
    readFuture
      (createAttachment
        (createAttachment (freshAttachmentManager T) aid d1 t1).1 aid d2 t2).1 0 =
      FutureStatus.resolved d1 := by
  have hp1 : createAttachment (freshAttachmentManager T) aid d1 t1 =
      (⟨T, [(aid, 0)], [(t1, aid)], [⟨some d1, false, false⟩]⟩, Except.ok ()) := by
    simp [createAttachment, recordAndEvict, createAttachmentPromiseHelperLocked, assocFind,
      freshAttachmentManager, insertTimeStamp, scanTimeStamps, Nat.sub_self,
      Nat.le_zero, Nat.pos_iff_ne_zero.mp hT]
  have hp2 : createAttachment
      (⟨T, [(aid, 0)], [(t1, aid)], [⟨some d1, false, false⟩]⟩ : AttachmentManager)
        aid d2 t2 =
      (⟨T, [(aid, 0)], [(t1, aid), (t2, aid)], [⟨some d1, false, false⟩]⟩,
        Except.error FutureError.promiseAlreadySatisfied) := by
    simp [createAttachment, recordAndEvict, createAttachmentPromiseHelperLocked, assocFind,
      insertTimeStamp, scanTimeStamps, Nat.not_lt.mpr h12, Nat.not_le.mpr hgap]
  rw [hp1]
  simp [hp2, readFuture]

/-- Witness for the amended C4 at a concrete input. -/
theorem double_provide_keeps_first_data_witness :
    0 < 1 ∧ 0 ≤ 0 ∧ 0 - 0 < 1 ∧
    (createAttachment
        (createAttachment (freshAttachmentManager 1) "A1" 5 0).1 "A1" 9 0 =
      (⟨1, [("A1", 0)], [(0, "A1"), (0, "A1")], [⟨some 5, false, false⟩]⟩,
        Except.error FutureError.promiseAlreadySatisfied) ∧
    readFuture
      (createAttachment
        (createAttachment (freshAttachmentManager 1) "A1" 5 0).1 "A1" 9 0).1 0 =
      FutureStatus.resolved 5) :=
  ⟨by decide, by decide, by decide,
    double_provide_keeps_first_data "A1" 5 9 0 0 1 (by decide) (by decide) (by decide)⟩

/-- C5: releasing a slot that is still pending while a consumer holds its
reader future makes that consumer observe a failure (`broken_promise`), never
an indefinite wait. -/
theorem release_pending_fails_waiting_reader (am : AttachmentManager)
    (aid : AttachmentId) (idx : Nat) (st : SharedState)
    (hfind : assocFind am.m_attachments aid = some idx)
    (hst : am.sharedStates[idx]? = some st)
    (hpending : st.value = none) (_hheld : st.futureRetrieved = true) :
    readFuture (releaseAttachment am aid) idx = FutureStatus.failed := by
  have hdestroy : destroyPromiseAt am.sharedStates idx =
      am.sharedStates.set idx ⟨none, true, st.futureRetrieved⟩ := by
    unfold destroyPromiseAt
    rw [hst]
    simp [hpending]
  have hset : (am.sharedStates.set idx
      (⟨none, true, st.futureRetrieved⟩ : SharedState))[idx]? =
      some ⟨none, true, st.futureRetrieved⟩ := by
    rw [List.getElem?_set_self', hst]
    rfl
  unfold releaseAttachment eraseAttachmentEntry
  rw [hfind]
  unfold readFuture
  simp [hdestroy, hset]

/-- Witness for C5 at a concrete input: release after a single pending reader. -/
theorem release_pending_fails_waiting_reader_witness :
    assocFind (createAttachmentReader (freshAttachmentManager 10) "A1").1.m_attachments
        "A1" = some 0 ∧
    (createAttachmentReader (freshAttachmentManager 10) "A1").1.sharedStates[0]? =
      some ⟨none, false, true⟩ ∧
    (⟨none, false, true⟩ : SharedState).value = none ∧
    (⟨none, false, true⟩ : SharedState).futureRetrieved = true ∧
    readFuture
      (releaseAttachment (createAttachmentReader (freshAttachmentManager 10) "A1").1
        "A1") 0 = FutureStatus.failed :=
  ⟨by decide, by decide, by decide, by decide,
    release_pending_fails_waiting_reader _ "A1" 0 ⟨none, false, true⟩
      (by decide) (by decide) (by decide) (by decide)⟩

/-! ### Eviction-scan and timestamp-index lemmas -/

theorem scanTimeStamps_timeout_zero (c : Nat) (ts : List (Nat × AttachmentId)) :
    scanTimeStamps c 0 ts = ([], ts.map Prod.snd) := by
  induction ts with
  | nil => rfl
  | cons e rest ih =>
      obtain ⟨t, aid⟩ := e
      rw [scanTimeStamps, if_pos (Nat.zero_le _), ih]
      rfl

theorem mem_insertTimeStamp_iff (ts : List (Nat × AttachmentId)) (t : Nat)
    (aid : AttachmentId) (e : Nat × AttachmentId) :
    e ∈ insertTimeStamp ts t aid ↔ e = (t, aid) ∨ e ∈ ts := by
  induction ts with
  | nil => simp [insertTimeStamp]
  | cons e0 rest ih =>
      obtain ⟨t0, a0⟩ := e0
      rw [insertTimeStamp]
      by_cases hlt : t < t0
      · rw [if_pos hlt]
        simp
      · rw [if_neg hlt]
        simp [ih]
        tauto

theorem mem_map_snd_insertTimeStamp (ts : List (Nat × AttachmentId)) (t : Nat)
    (aid i : AttachmentId) (hi : i ∈ (insertTimeStamp ts t aid).map Prod.snd) :
    i = aid ∨ i ∈ ts.map Prod.snd := by
  rcases List.mem_map.mp hi with ⟨e, he, hei⟩
  rcases (mem_insertTimeStamp_iff ts t aid e).mp he with he2 | he2
  · left
    rw [← hei, he2]
  · right
    exact List.mem_map.mpr ⟨e, he2, hei⟩

theorem insertTimeStamp_sorted (ts : List (Nat × AttachmentId)) (t : Nat)
    (aid : AttachmentId)
    (hs : ts.Pairwise (fun e1 e2 => e1.1 ≤ e2.1)) :
    (insertTimeStamp ts t aid).Pairwise (fun e1 e2 => e1.1 ≤ e2.1) := by
  induction ts with
  | nil => simp [insertTimeStamp]
  | cons e0 rest ih =>
      obtain ⟨t0, a0⟩ := e0
      rw [List.pairwise_cons] at hs
      obtain ⟨h0, hrest⟩ := hs
      rw [insertTimeStamp]
      by_cases hlt : t < t0
      · rw [if_pos hlt]
        refine List.Pairwise.cons ?_ (List.Pairwise.cons h0 hrest)
        intro e he
        rcases List.mem_cons.mp he with he | he
        · rw [he]
          exact Nat.le_of_lt hlt
        · exact Nat.le_trans (Nat.le_of_lt hlt) (h0 e he)
      · rw [if_neg hlt]
        refine List.Pairwise.cons ?_ (ih hrest)
        intro e he
        rcases (mem_insertTimeStamp_iff rest t aid e).mp he with he | he
        · rw [he]
          exact Nat.le_of_not_lt hlt
        · exact h0 e he

theorem mem_scan_evicted_of_sorted (c T : Nat) (ts : List (Nat × AttachmentId))
    (hs : ts.Pairwise (fun e1 e2 => e1.1 ≤ e2.1)) (e : Nat × AttachmentId)
    (he : e ∈ ts) (hgap : T ≤ c - e.1) :
    e.2 ∈ (scanTimeStamps c T ts).2 := by
  induction ts with
  | nil => cases he
  | cons e0 rest ih =>
      obtain ⟨t0, a0⟩ := e0
      rw [List.pairwise_cons] at hs
      obtain ⟨h0, hrest⟩ := hs
      rw [scanTimeStamps]
      by_cases hc : T ≤ c - t0
      · rw [if_pos hc]
        rcases List.mem_cons.mp he with he | he
        · rw [he]
          exact List.mem_cons_self _ _
        · exact List.mem_cons_of_mem _ (ih hrest he)
      · rcases List.mem_cons.mp he with he | he
        · rw [he] at hgap
          exact absurd hgap hc
        · have h1 : t0 ≤ e.1 := h0 e he
          have h2 : c - e.1 ≤ c - t0 := Nat.sub_le_sub_left h1 c
          exact absurd (Nat.le_trans hgap h2) hc

theorem scanTimeStamps_eq_dropWhile (c T : Nat) (ts : List (Nat × AttachmentId)) :
    scanTimeStamps c T ts =
      (ts.dropWhile (fun e => decide (T ≤ c - e.1)),
        (ts.takeWhile (fun e => decide (T ≤ c - e.1))).map Prod.snd) := by
  induction ts with
  | nil => rfl
  | cons e0 rest ih =>
      obtain ⟨t0, a0⟩ := e0
      rw [scanTimeStamps]
      by_cases hc : T ≤ c - t0
      · rw [if_pos hc, ih]
        simp [List.dropWhile_cons, List.takeWhile_cons, hc]
      · rw [if_neg hc]
        simp [List.dropWhile_cons, List.takeWhile_cons, hc]

theorem mem_scan_evicted_sub (c T : Nat) (ts : List (Nat × AttachmentId))
    (i : AttachmentId) (hi : i ∈ (scanTimeStamps c T ts).2) :
    i ∈ ts.map Prod.snd := by
  induction ts with
  | nil => simp [scanTimeStamps] at hi
  | cons e0 rest ih =>
      obtain ⟨t0, a0⟩ := e0
      rw [scanTimeStamps] at hi
      by_cases hc : T ≤ c - t0
      · rw [if_pos hc] at hi
        rw [List.map_cons]
        rcases List.mem_cons.mp hi with hi | hi
        · rw [hi]
          exact List.mem_cons_self _ _
        · exact List.mem_cons_of_mem _ (ih hi)
      · rw [if_neg hc] at hi
        cases hi

theorem mem_scan_remaining_sub (c T : Nat) (ts : List (Nat × AttachmentId))
    (e : Nat × AttachmentId) (he : e ∈ (scanTimeStamps c T ts).1) : e ∈ ts := by
  induction ts with
  | nil => simp [scanTimeStamps] at he
  | cons e0 rest ih =>
      obtain ⟨t0, a0⟩ := e0
      rw [scanTimeStamps] at he
      by_cases hc : T ≤ c - t0
      · rw [if_pos hc] at he
        exact List.mem_cons_of_mem _ (ih he)
      · rw [if_neg hc] at he
        exact he

/-! ### Erase and fold lemmas -/

theorem eraseAttachmentEntry_find_self (am : AttachmentManager) (aid : AttachmentId) :
    assocFind (eraseAttachmentEntry am aid).m_attachments aid = none := by
  unfold eraseAttachmentEntry
  cases hfind : assocFind am.m_attachments aid with
  | none => exact hfind
  | some idx => simp [assocFind_erase]

theorem eraseAttachmentEntry_find_none (am : AttachmentManager) (b aid : AttachmentId)
    (h : assocFind am.m_attachments aid = none) :
    assocFind (eraseAttachmentEntry am b).m_attachments aid = none := by
  unfold eraseAttachmentEntry
  cases hfind : assocFind am.m_attachments b with
  | none => exact h
  | some idx =>
      by_cases hab : aid = b
      · simp [assocFind_erase, hab]
      · simp [assocFind_erase, hab]
        exact h

theorem eraseAttachmentEntry_find_other (am : AttachmentManager) (b aid : AttachmentId)
    (hne : ¬ aid = b) :
    assocFind (eraseAttachmentEntry am b).m_attachments aid =
      assocFind am.m_attachments aid := by
  unfold eraseAttachmentEntry
  cases hfind : assocFind am.m_attachments b with
  | none => rfl
  | some idx => simp [assocFind_erase, hne]

theorem foldlErase_find_none (ids : List AttachmentId) :
    ∀ am aid, assocFind am.m_attachments aid = none →
      assocFind ((ids.foldl eraseAttachmentEntry am).m_attachments) aid = none := by
  induction ids with
  | nil => intro am aid h; exact h
  | cons b ids ih =>
      intro am aid h
      rw [List.foldl_cons]
      exact ih _ _ (eraseAttachmentEntry_find_none am b aid h)

theorem foldlErase_find_of_mem (ids : List AttachmentId) :
    ∀ am aid, aid ∈ ids →
      assocFind ((ids.foldl eraseAttachmentEntry am).m_attachments) aid = none := by
  induction ids with
  | nil => intro am aid h; cases h
  | cons b ids ih =>
      intro am aid h
      rw [List.foldl_cons]
      rcases List.mem_cons.mp h with h | h
      · rw [h]
        exact foldlErase_find_none ids _ _ (eraseAttachmentEntry_find_self am b)
      · exact ih _ _ h

theorem foldlErase_find_not_mem (ids : List AttachmentId) :
    ∀ am aid, aid ∉ ids →
      assocFind ((ids.foldl eraseAttachmentEntry am).m_attachments) aid =
        assocFind am.m_attachments aid := by
  induction ids with
  | nil => intro am aid _; rfl
  | cons b ids ih =>
      intro am aid h
      rw [List.foldl_cons, ih _ _ (fun hm => h (List.mem_cons_of_mem _ hm))]
      exact eraseAttachmentEntry_find_other am b aid
        (fun he => h (by rw [he]; exact List.mem_cons_self _ _))

theorem eraseAttachmentEntry_m_timeStamps (am : AttachmentManager) (aid : AttachmentId) :
    (eraseAttachmentEntry am aid).m_timeStamps = am.m_timeStamps := by
  unfold eraseAttachmentEntry
  cases assocFind am.m_attachments aid <;> rfl

theorem foldlErase_m_timeStamps (ids : List AttachmentId) :
    ∀ am : AttachmentManager,
      (ids.foldl eraseAttachmentEntry am).m_timeStamps = am.m_timeStamps := by
  induction ids with
  | nil => intro am; rfl
  | cons b ids ih =>
      intro am
      rw [List.foldl_cons, ih, eraseAttachmentEntry_m_timeStamps]

/-! ### Helper and value-preservation lemmas -/

theorem helper_m_timeout (am : AttachmentManager) (aid : AttachmentId) :
    (createAttachmentPromiseHelperLocked am aid).1.m_timeout = am.m_timeout := by
  unfold createAttachmentPromiseHelperLocked
  cases assocFind am.m_attachments aid <;> rfl

theorem helper_m_timeStamps (am : AttachmentManager) (aid : AttachmentId) :
    (createAttachmentPromiseHelperLocked am aid).1.m_timeStamps = am.m_timeStamps := by
  unfold createAttachmentPromiseHelperLocked
  cases assocFind am.m_attachments aid <;> rfl

theorem helper_find_some (am : AttachmentManager) (b aid : AttachmentId) (idx : Nat)
    (h : assocFind am.m_attachments aid = some idx) :
    assocFind (createAttachmentPromiseHelperLocked am b).1.m_attachments aid = some idx := by
  unfold createAttachmentPromiseHelperLocked
  cases hfind : assocFind am.m_attachments b with
  | some j => exact h
  | none => exact assocFind_append_of_some _ _ _ _ h

theorem value_getElem_append_pending (states : List SharedState) (j : Nat) :
    ((states ++ [(⟨none, false, false⟩ : SharedState)])[j]?).bind SharedState.value =
      (states[j]?).bind SharedState.value := by
  by_cases hj : j < states.length
  · rw [List.getElem?_append_left hj]
  · have hge : states.length ≤ j := Nat.le_of_not_lt hj
    rw [List.getElem?_append_right hge, List.getElem?_eq_none hge]
    cases hd : j - states.length with
    | zero => rfl
    | succ n => rfl

theorem helper_fulfilledValueAt (am : AttachmentManager) (aid : AttachmentId) (j : Nat) :
    fulfilledValueAt (createAttachmentPromiseHelperLocked am aid).1 j =
      fulfilledValueAt am j := by
  unfold createAttachmentPromiseHelperLocked fulfilledValueAt
  cases assocFind am.m_attachments aid with
  | some idx => rfl
  | none => exact value_getElem_append_pending am.sharedStates j

theorem destroyPromiseAt_value (states : List SharedState) (i j : Nat) :
    ((destroyPromiseAt states i)[j]?).bind SharedState.value =
      (states[j]?).bind SharedState.value := by
  unfold destroyPromiseAt
  cases hst : states[i]? with
  | none => rfl
  | some st =>
      dsimp only
      by_cases hv : st.value.isNone
      · rw [if_pos hv]
        by_cases hij : i = j
        · subst hij
          rw [List.getElem?_set_self', hst]
          rfl
        · rw [List.getElem?_set_ne hij]
      · rw [if_neg hv]

theorem eraseAttachmentEntry_fulfilledValueAt (am : AttachmentManager)
    (b : AttachmentId) (j : Nat) :
    fulfilledValueAt (eraseAttachmentEntry am b) j = fulfilledValueAt am j := by
  unfold eraseAttachmentEntry fulfilledValueAt
  cases assocFind am.m_attachments b with
  | none => rfl
  | some idx => exact destroyPromiseAt_value am.sharedStates idx j

theorem foldlErase_fulfilledValueAt (ids : List AttachmentId) :
    ∀ (am : AttachmentManager) (j : Nat),
      fulfilledValueAt (ids.foldl eraseAttachmentEntry am) j = fulfilledValueAt am j := by
  induction ids with
  | nil => intro am j; rfl
  | cons b ids ih =>
      intro am j
      rw [List.foldl_cons, ih, eraseAttachmentEntry_fulfilledValueAt]

theorem recordAndEvict_fulfilledValueAt (am : AttachmentManager) (aid : AttachmentId)
    (c : Nat) (j : Nat) :
    fulfilledValueAt (recordAndEvict am aid c) j = fulfilledValueAt am j := by
  unfold recordAndEvict
  rw [foldlErase_fulfilledValueAt]
  rfl

theorem recordAndEvict_m_timeStamps (am : AttachmentManager) (aid : AttachmentId)
    (c : Nat) :
    (recordAndEvict am aid c).m_timeStamps =
      (scanTimeStamps c am.m_timeout (insertTimeStamp am.m_timeStamps c aid)).1 := by
  unfold recordAndEvict
  rw [foldlErase_m_timeStamps]

/-! ### Shape lemmas for `createAttachment` -/

theorem createAttachment_shape (am : AttachmentManager) (aid : AttachmentId)
    (d t : Nat) :
    (createAttachment am aid d t).1.m_attachments =
      (recordAndEvict (createAttachmentPromiseHelperLocked am aid).1 aid t).m_attachments ∧
    (createAttachment am aid d t).1.m_timeStamps =
      (recordAndEvict (createAttachmentPromiseHelperLocked am aid).1 aid t).m_timeStamps := by
  simp only [createAttachment]
  cases hfind : assocFind
      (recordAndEvict (createAttachmentPromiseHelperLocked am aid).1 aid t).m_attachments
      aid with
  | none => exact ⟨rfl, rfl⟩
  | some idx =>
      dsimp only
      cases hst : (recordAndEvict (createAttachmentPromiseHelperLocked am aid).1 aid
          t).sharedStates[idx]? with
      | none => exact ⟨rfl, rfl⟩
      | some st =>
          dsimp only
          cases hv : st.value with
          | some d0 => exact ⟨rfl, rfl⟩
          | none => exact ⟨rfl, rfl⟩

theorem createAttachment_of_find_none (am : AttachmentManager) (aid : AttachmentId)
    (d t : Nat)
    (h : assocFind
      (recordAndEvict (createAttachmentPromiseHelperLocked am aid).1 aid t).m_attachments
      aid = none) :
    createAttachment am aid d t =
      (recordAndEvict (createAttachmentPromiseHelperLocked am aid).1 aid t,
        Except.ok ()) := by
  simp only [createAttachment]
  rw [h]

/-! ### Claims C6 and C7 -/

/-- C6: with a TTL of zero, a `createAttachment` call evicts every slot in
the eviction index — including the slot of the call itself — during its scan:
afterwards the index is empty, neither the call's id nor any previously
indexed id is still in the slot map, no promise is fulfilled by the call
(every arena slot's stored value is exactly what it was before), and the call
returns normally without storing the attachment. -/
theorem ttl_zero_disables_caching (am : AttachmentManager) (aid : AttachmentId)
    (d t : Nat) (hT : am.m_timeout = 0) :
    (createAttachment am aid d t).2 = Except.ok () ∧
    (createAttachment am aid d t).1.m_timeStamps = [] ∧
    assocFind (createAttachment am aid d t).1.m_attachments aid = none ∧
    (∀ e ∈ am.m_timeStamps,
      assocFind (createAttachment am aid d t).1.m_attachments e.2 = none) ∧
    (∀ j, fulfilledValueAt (createAttachment am aid d t).1 j = fulfilledValueAt am j) := by
  have htm : (createAttachmentPromiseHelperLocked am aid).1.m_timeout = 0 := by
    rw [helper_m_timeout, hT]
  have hts : (createAttachmentPromiseHelperLocked am aid).1.m_timeStamps =
      am.m_timeStamps := helper_m_timeStamps am aid
  have hre : recordAndEvict (createAttachmentPromiseHelperLocked am aid).1 aid t =
      ((insertTimeStamp am.m_timeStamps t aid).map Prod.snd).foldl eraseAttachmentEntry
        { (createAttachmentPromiseHelperLocked am aid).1 with m_timeStamps := [] } := by
    unfold recordAndEvict
    rw [htm, hts, scanTimeStamps_timeout_zero]
    simp [htm]
  have hmem : ∀ i, i ∈ (insertTimeStamp am.m_timeStamps t aid).map Prod.snd →
      assocFind
        (recordAndEvict (createAttachmentPromiseHelperLocked am aid).1 aid t).m_attachments
        i = none := by
    intro i hi
    rw [hre]
    exact foldlErase_find_of_mem _ _ _ hi
  have haidmem : aid ∈ (insertTimeStamp am.m_timeStamps t aid).map Prod.snd :=
    List.mem_map.mpr ⟨(t, aid), (mem_insertTimeStamp_iff _ _ _ _).mpr (Or.inl rfl), rfl⟩
  have hnone : assocFind
      (recordAndEvict (createAttachmentPromiseHelperLocked am aid).1 aid t).m_attachments
      aid = none := hmem aid haidmem
  have heq := createAttachment_of_find_none am aid d t hnone
  refine ⟨by rw [heq], ?_, ?_, ?_, ?_⟩
  · rw [heq]
    show (recordAndEvict (createAttachmentPromiseHelperLocked am aid).1 aid t).m_timeStamps = []
    rw [recordAndEvict_m_timeStamps, htm, hts, scanTimeStamps_timeout_zero]
  · rw [heq]
    exact hnone
  · intro e he
    rw [heq]
    refine hmem e.2 (List.mem_map.mpr ⟨e, ?_, rfl⟩)
    exact (mem_insertTimeStamp_iff _ _ _ _).mpr (Or.inr he)
  · intro j
    rw [heq]
    show fulfilledValueAt (recordAndEvict (createAttachmentPromiseHelperLocked am aid).1 aid t) j =
      fulfilledValueAt am j
    rw [recordAndEvict_fulfilledValueAt, helper_fulfilledValueAt]

/-- Witness for C6 at a concrete input: a zero-TTL manager with one fulfilled,
indexed slot, on which a provide call for a second id runs. -/
theorem ttl_zero_disables_caching_witness :
    (⟨0, [("B", 0)], [(0, "B")], [⟨some 3, false, false⟩]⟩ :
      AttachmentManager).m_timeout = 0 ∧
    ((createAttachment
        (⟨0, [("B", 0)], [(0, "B")], [⟨some 3, false, false⟩]⟩ : AttachmentManager)
        "A" 7 2).2 = Except.ok () ∧
    (createAttachment
        (⟨0, [("B", 0)], [(0, "B")], [⟨some 3, false, false⟩]⟩ : AttachmentManager)
        "A" 7 2).1.m_timeStamps = [] ∧
    assocFind (createAttachment
        (⟨0, [("B", 0)], [(0, "B")], [⟨some 3, false, false⟩]⟩ : AttachmentManager)
        "A" 7 2).1.m_attachments "A" = none ∧
    (∀ e ∈ (⟨0, [("B", 0)], [(0, "B")], [⟨some 3, false, false⟩]⟩ :
        AttachmentManager).m_timeStamps,
      assocFind (createAttachment
        (⟨0, [("B", 0)], [(0, "B")], [⟨some 3, false, false⟩]⟩ : AttachmentManager)
        "A" 7 2).1.m_attachments e.2 = none) ∧
    (∀ j, fulfilledValueAt (createAttachment
        (⟨0, [("B", 0)], [(0, "B")], [⟨some 3, false, false⟩]⟩ : AttachmentManager)
        "A" 7 2).1 j =
      fulfilledValueAt
        (⟨0, [("B", 0)], [(0, "B")], [⟨some 3, false, false⟩]⟩ : AttachmentManager) j)) :=
  ⟨rfl, ttl_zero_disables_caching _ "A" 7 2 rfl⟩

/-- C7: the eviction scan of `createAttachment` walks the time-ordered index
oldest creation time first and stops at the first entry within the TTL,
evicting every entry visited before that point (the surviving index is the
`dropWhile` of the expired prefix); consequently, for two unread slots A and B
with A created strictly before B and both exceeding the TTL at scan time, A is
evicted no later than B — both are gone from the slot map after the call. -/
theorem eviction_oldest_first (am : AttachmentManager) (aid : AttachmentId)
    (d t tA tB : Nat) (idA idB : AttachmentId)
    (hsorted : am.m_timeStamps.Pairwise (fun e1 e2 => e1.1 ≤ e2.1))
    (hA : (tA, idA) ∈ am.m_timeStamps) (hB : (tB, idB) ∈ am.m_timeStamps)
    (_hAB : tA < tB)
    (hgapA : am.m_timeout ≤ t - tA) (hgapB : am.m_timeout ≤ t - tB) :
    assocFind (createAttachment am aid d t).1.m_attachments idA = none ∧
    assocFind (createAttachment am aid d t).1.m_attachments idB = none ∧
    (createAttachment am aid d t).1.m_timeStamps =
      (insertTimeStamp am.m_timeStamps t aid).dropWhile
        (fun e => decide (am.m_timeout ≤ t - e.1)) := by
  have hts : (createAttachmentPromiseHelperLocked am aid).1.m_timeStamps =
      am.m_timeStamps := helper_m_timeStamps am aid
  have htm : (createAttachmentPromiseHelperLocked am aid).1.m_timeout =
      am.m_timeout := helper_m_timeout am aid
  have hsorted2 : (insertTimeStamp am.m_timeStamps t aid).Pairwise
      (fun e1 e2 => e1.1 ≤ e2.1) := insertTimeStamp_sorted _ _ _ hsorted
  have hre : recordAndEvict (createAttachmentPromiseHelperLocked am aid).1 aid t =
      (scanTimeStamps t am.m_timeout (insertTimeStamp am.m_timeStamps t aid)).2.foldl
        eraseAttachmentEntry
        { (createAttachmentPromiseHelperLocked am aid).1 with
            m_timeStamps :=
              (scanTimeStamps t am.m_timeout (insertTimeStamp am.m_timeStamps t aid)).1 } := by
    unfold recordAndEvict
    rw [htm, hts]
    simp [htm]
  have hshape := createAttachment_shape am aid d t
  have hev : ∀ (tX : Nat) (idX : AttachmentId), (tX, idX) ∈ am.m_timeStamps →
      am.m_timeout ≤ t - tX →
      assocFind (createAttachment am aid d t).1.m_attachments idX = none := by
    intro tX idX hX hgapX
    have hmemX : (tX, idX) ∈ insertTimeStamp am.m_timeStamps t aid :=
      (mem_insertTimeStamp_iff _ _ _ _).mpr (Or.inr hX)
    have hevX : idX ∈ (scanTimeStamps t am.m_timeout
        (insertTimeStamp am.m_timeStamps t aid)).2 :=
      mem_scan_evicted_of_sorted t am.m_timeout _ hsorted2 (tX, idX) hmemX hgapX
    rw [hshape.1, hre]
    exact foldlErase_find_of_mem _ _ _ hevX
  refine ⟨hev tA idA hA hgapA, hev tB idB hB hgapB, ?_⟩
  rw [hshape.2, recordAndEvict_m_timeStamps, htm, hts, scanTimeStamps_eq_dropWhile]

/-- Witness for C7 at a concrete input: two expired slots, the older first. -/
theorem eviction_oldest_first_witness :
    (⟨1, [("A", 0), ("B", 1)], [(0, "A"), (1, "B")],
        [⟨none, false, false⟩, ⟨none, false, false⟩]⟩ :
      AttachmentManager).m_timeStamps.Pairwise (fun e1 e2 => e1.1 ≤ e2.1) ∧
    ((0 : Nat), ("A" : AttachmentId)) ∈
      (⟨1, [("A", 0), ("B", 1)], [(0, "A"), (1, "B")],
        [⟨none, false, false⟩, ⟨none, false, false⟩]⟩ :
        AttachmentManager).m_timeStamps ∧
    ((1 : Nat), ("B" : AttachmentId)) ∈
      (⟨1, [("A", 0), ("B", 1)], [(0, "A"), (1, "B")],
        [⟨none, false, false⟩, ⟨none, false, false⟩]⟩ :
        AttachmentManager).m_timeStamps ∧
    (0 : Nat) < 1 ∧
    (⟨1, [("A", 0), ("B", 1)], [(0, "A"), (1, "B")],
        [⟨none, false, false⟩, ⟨none, false, false⟩]⟩ :
      AttachmentManager).m_timeout ≤ 5 - 0 ∧
    (⟨1, [("A", 0), ("B", 1)], [(0, "A"), (1, "B")],
        [⟨none, false, false⟩, ⟨none, false, false⟩]⟩ :
      AttachmentManager).m_timeout ≤ 5 - 1 ∧
    (assocFind (createAttachment
        (⟨1, [("A", 0), ("B", 1)], [(0, "A"), (1, "B")],
          [⟨none, false, false⟩, ⟨none, false, false⟩]⟩ : AttachmentManager)
        "C" 9 5).1.m_attachments "A" = none ∧
    assocFind (createAttachment
        (⟨1, [("A", 0), ("B", 1)], [(0, "A"), (1, "B")],
          [⟨none, false, false⟩, ⟨none, false, false⟩]⟩ : AttachmentManager)
        "C" 9 5).1.m_attachments "B" = none ∧
    (createAttachment
        (⟨1, [("A", 0), ("B", 1)], [(0, "A"), (1, "B")],
          [⟨none, false, false⟩, ⟨none, false, false⟩]⟩ : AttachmentManager)
        "C" 9 5).1.m_timeStamps =
      (insertTimeStamp
        (⟨1, [("A", 0), ("B", 1)], [(0, "A"), (1, "B")],
          [⟨none, false, false⟩, ⟨none, false, false⟩]⟩ :
          AttachmentManager).m_timeStamps 5 "C").dropWhile
        (fun e =>
          decide ((⟨1, [("A", 0), ("B", 1)], [(0, "A"), (1, "B")],
            [⟨none, false, false⟩, ⟨none, false, false⟩]⟩ :
            AttachmentManager).m_timeout ≤ 5 - e.1))) :=
  ⟨by decide, by decide, by decide, by decide, by decide, by decide,
    eviction_oldest_first _ "C" 9 5 0 1 "A" "B"
      (by decide) (by decide) (by decide) (by decide) (by decide) (by decide)⟩

/-! ### Claims C9 and C10 -/

theorem createAttachmentReader_m_timeStamps (am : AttachmentManager) (b : AttachmentId) :
    (createAttachmentReader am b).1.m_timeStamps = am.m_timeStamps := by
  simp only [createAttachmentReader]
  cases hst : (createAttachmentPromiseHelperLocked am
      b).1.sharedStates[(createAttachmentPromiseHelperLocked am b).2]? with
  | none => exact helper_m_timeStamps am b
  | some st =>
      dsimp only
      by_cases hr : st.futureRetrieved
      · rw [if_pos hr]
        exact helper_m_timeStamps am b
      · rw [if_neg hr]
        exact helper_m_timeStamps am b

theorem createAttachmentReader_find_some (am : AttachmentManager)
    (b aid : AttachmentId) (idx : Nat)
    (h : assocFind am.m_attachments aid = some idx) :
    assocFind (createAttachmentReader am b).1.m_attachments aid = some idx := by
  have h2 := helper_find_some am b aid idx h
  simp only [createAttachmentReader]
  cases hst : (createAttachmentPromiseHelperLocked am
      b).1.sharedStates[(createAttachmentPromiseHelperLocked am b).2]? with
  | none => exact h2
  | some st =>
      dsimp only
      by_cases hr : st.futureRetrieved
      · rw [if_pos hr]
        exact h2
      · rw [if_neg hr]
        exact h2

/-- C9 fails on the code: after reader-then-provide on a fresh manager, a
SECOND `createAttachmentReader` for the same id does not obtain a handle:
`get_future` has already been called on the slot's promise, so the call
signals `future_already_retrieved` (in the C++, `std::promise::get_future`
throws `std::future_error`). -/
theorem second_reader_fails_counterexample :
    (createAttachmentReader
        (createAttachment
          (createAttachmentReader (freshAttachmentManager 10) "A1").1 "A1" 7 0).1
        "A1").2 = Except.error FutureError.futureAlreadyRetrieved := rfl

/-- C9 amended: once a slot is fulfilled, the handle obtained by the FIRST
`createAttachmentReader(id)` call resolves to the fulfilled stream handle, but
a second or later `createAttachmentReader(id)` on the same live slot does not
obtain a handle — it fails with `future_already_retrieved` (and leaves the
fulfilled value in place). -/
theorem fulfilled_slot_single_reader (aid : AttachmentId) (d t T : Nat)
    (hT : 0 < T) :
    readFuture
      (createAttachment
        (createAttachmentReader (freshAttachmentManager T) aid).1 aid d t).1 0 =
      FutureStatus.resolved d ∧
    (createAttachmentReader
        (createAttachment
          (createAttachmentReader (freshAttachmentManager T) aid).1 aid d t).1
        aid).2 = Except.error FutureError.futureAlreadyRetrieved ∧
    readFuture
      (createAttachmentReader
        (createAttachment
          (createAttachmentReader (freshAttachmentManager T) aid).1 aid d t).1
        aid).1 0 = FutureStatus.resolved d := by
  have hr1 : createAttachmentReader (freshAttachmentManager T) aid =
      (⟨T, [(aid, 0)], [], [⟨none, false, true⟩]⟩, Except.ok 0) := by
    simp [createAttachmentReader, createAttachmentPromiseHelperLocked,
      freshAttachmentManager, assocFind]
  have hp1 : createAttachment
      (⟨T, [(aid, 0)], [], [⟨none, false, true⟩]⟩ : AttachmentManager) aid d t =
      (⟨T, [(aid, 0)], [(t, aid)], [⟨some d, false, true⟩]⟩, Except.ok ()) := by
    simp [createAttachment, recordAndEvict, createAttachmentPromiseHelperLocked,
      assocFind, insertTimeStamp, scanTimeStamps, Nat.sub_self, Nat.le_zero,
      Nat.pos_iff_ne_zero.mp hT]
  have hr2 : createAttachmentReader
      (⟨T, [(aid, 0)], [(t, aid)], [⟨some d, false, true⟩]⟩ : AttachmentManager) aid =
      (⟨T, [(aid, 0)], [(t, aid)], [⟨some d, false, true⟩]⟩,
        Except.error FutureError.futureAlreadyRetrieved) := by
    simp [createAttachmentReader, createAttachmentPromiseHelperLocked, assocFind]
  rw [hr1]
  simp [hp1, hr2, readFuture]

/-- Witness for the amended C9 at a concrete input. -/
theorem fulfilled_slot_single_reader_witness :
    0 < 10 ∧
    (readFuture
      (createAttachment
        (createAttachmentReader (freshAttachmentManager 10) "A1").1 "A1" 7 0).1 0 =
      FutureStatus.resolved 7 ∧
    (createAttachmentReader
        (createAttachment
          (createAttachmentReader (freshAttachmentManager 10) "A1").1 "A1" 7 0).1
        "A1").2 = Except.error FutureError.futureAlreadyRetrieved ∧
    readFuture
      (createAttachmentReader
        (createAttachment
          (createAttachmentReader (freshAttachmentManager 10) "A1").1 "A1" 7 0).1
        "A1").1 0 = FutureStatus.resolved 7) :=
  ⟨by decide, fulfilled_slot_single_reader "A1" 7 0 10 (by decide)⟩

/-- C10: `createAttachmentReader` never touches the time-ordered eviction
index (creation timestamps are recorded only inside `createAttachment`), so a
slot whose id is absent from the index survives every TTL eviction scan: a
`createAttachment` for any other id leaves the slot's map entry intact and
keeps its id out of the index, while an explicit `releaseAttachment` does
remove it. -/
theorem reader_slot_never_evicted (am : AttachmentManager)
    (aid aid2 : AttachmentId) (idx : Nat) (d t : Nat)
    (hfind : assocFind am.m_attachments aid = some idx)
    (hnotts : aid ∉ am.m_timeStamps.map Prod.snd)
    (hne : ¬ aid2 = aid) :
    (∀ b, (createAttachmentReader am b).1.m_timeStamps = am.m_timeStamps) ∧
    (∀ b, assocFind (createAttachmentReader am b).1.m_attachments aid = some idx) ∧
    assocFind (createAttachment am aid2 d t).1.m_attachments aid = some idx ∧
    aid ∉ (createAttachment am aid2 d t).1.m_timeStamps.map Prod.snd ∧
    assocFind (releaseAttachment am aid).m_attachments aid = none := by
  have hts : (createAttachmentPromiseHelperLocked am aid2).1.m_timeStamps =
      am.m_timeStamps := helper_m_timeStamps am aid2
  have htm : (createAttachmentPromiseHelperLocked am aid2).1.m_timeout =
      am.m_timeout := helper_m_timeout am aid2
  have hre : recordAndEvict (createAttachmentPromiseHelperLocked am aid2).1 aid2 t =
      (scanTimeStamps t am.m_timeout (insertTimeStamp am.m_timeStamps t aid2)).2.foldl
        eraseAttachmentEntry
        { (createAttachmentPromiseHelperLocked am aid2).1 with
            m_timeStamps :=
              (scanTimeStamps t am.m_timeout
                (insertTimeStamp am.m_timeStamps t aid2)).1 } := by
    unfold recordAndEvict
    rw [htm, hts]
    simp [htm]
  have hnotev : aid ∉ (scanTimeStamps t am.m_timeout
      (insertTimeStamp am.m_timeStamps t aid2)).2 := by
    intro hmem
    rcases mem_map_snd_insertTimeStamp _ _ _ _
        (mem_scan_evicted_sub _ _ _ _ hmem) with h | h
    · exact hne h.symm
    · exact hnotts h
  have hshape := createAttachment_shape am aid2 d t
  refine ⟨createAttachmentReader_m_timeStamps am,
    fun b => createAttachmentReader_find_some am b aid idx hfind, ?_, ?_, ?_⟩
  · rw [hshape.1, hre, foldlErase_find_not_mem _ _ _ hnotev]
    exact helper_find_some am aid2 aid idx hfind
  · rw [hshape.2, recordAndEvict_m_timeStamps, htm, hts]
    intro hmem
    rcases List.mem_map.mp hmem with ⟨e, he, hei⟩
    rcases (mem_insertTimeStamp_iff _ _ _ _).mp
        (mem_scan_remaining_sub _ _ _ _ he) with h | h
    · rw [h] at hei
      exact hne hei
    · exact hnotts (List.mem_map.mpr ⟨e, h, hei⟩)
  · exact eraseAttachmentEntry_find_self am aid

/-- Witness for C10 at a concrete input: a slot created only by a reader call,
then a provide for another id. -/
theorem reader_slot_never_evicted_witness :
    assocFind (createAttachmentReader (freshAttachmentManager 5) "A").1.m_attachments
        "A" = some 0 ∧
    "A" ∉ ((createAttachmentReader (freshAttachmentManager 5) "A").1.m_timeStamps.map
        Prod.snd) ∧
    ¬ ("B" : AttachmentId) = "A" ∧
    ((∀ b, (createAttachmentReader
        (createAttachmentReader (freshAttachmentManager 5) "A").1 b).1.m_timeStamps =
      (createAttachmentReader (freshAttachmentManager 5) "A").1.m_timeStamps) ∧
    (∀ b, assocFind (createAttachmentReader
        (createAttachmentReader (freshAttachmentManager 5) "A").1 b).1.m_attachments
        "A" = some 0) ∧
    assocFind (createAttachment
        (createAttachmentReader (freshAttachmentManager 5) "A").1 "B" 7 9).1.m_attachments
        "A" = some 0 ∧
    "A" ∉ ((createAttachment
        (createAttachmentReader (freshAttachmentManager 5) "A").1 "B" 7 9).1.m_timeStamps.map
        Prod.snd) ∧
    assocFind (releaseAttachment
        (createAttachmentReader (freshAttachmentManager 5) "A").1 "A").m_attachments
        "A" = none) :=
  ⟨by decide, by decide, by decide,
    reader_slot_never_evicted _ "A" "B" 0 7 9 (by decide) (by decide) (by decide)⟩

/-! ### Claim C8 -/

theorem messageIdAtCall_eq (n : Nat) : ∀ seed : Nat,
    messageIdAtCall seed n = String.mk (List.replicate (seed + n + 1) 'M') := by
  induction n with
  | zero => intro seed; rfl
  | succ n ih =>
      intro seed
      rw [messageIdAtCall, show (generateMessageId seed).2 = seed + 1 from rfl, ih]
      have harith : seed + 1 + n + 1 = seed + (n + 1) + 1 := by omega
      rw [harith]

theorem messageIdAtCall_inj (seed n m : Nat) (hnm : n ≠ m) :
    messageIdAtCall seed n ≠ messageIdAtCall seed m := by
  rw [messageIdAtCall_eq, messageIdAtCall_eq]
  intro h
  have h2 := congrArg List.length (congrArg String.data h)
  simp only [List.length_replicate] at h2
  exact hnm (by omega)

set_option maxRecDepth 8192 in
/-- C8: for every event name, namespace, message-id, payload and context,
building an envelope with an empty dialog-request-id yields a header with no
`dialogRequestId` field at all, and building one with an empty context yields
an envelope with no context section at all (for every dialog-request-id); the
builder also reproduces all four expected event strings of
`CapabilityAgentTest.cpp`, and the message-ids generated across repeated
builder calls are pairwise distinct. -/
theorem envelope_formatting :
    (∀ nsp en mid payload ctx : String,
      buildJsonEventString nsp en mid "" payload ctx =
        (if ctx = "" then "\x7b" else String.dropRight ctx 1 ++ ",") ++
          ("\"event\":\x7b\"header\":\x7b" ++
            ("\"namespace\":\"" ++ nsp ++ "\",\"name\":\"" ++ en ++
              "\",\"messageId\":\"" ++ mid ++ "\"") ++
            "\x7d,\"payload\":" ++ payload ++ "\x7d") ++ "\x7d") ∧
    (∀ nsp en mid dlg payload : String,
      buildJsonEventString nsp en mid dlg payload "" =
        "\x7b" ++
          ("\"event\":\x7b\"header\":\x7b" ++
            ("\"namespace\":\"" ++ nsp ++ "\",\"name\":\"" ++ en ++
              "\",\"messageId\":\"" ++ mid ++ "\"" ++
              (if dlg = "" then "" else ",\"dialogRequestId\":\"" ++ dlg ++ "\"")) ++
            "\x7d,\"payload\":" ++ payload ++ "\x7d") ++ "\x7d") ∧
    buildJsonEventString NAMESPACE_SPEECH_RECOGNIZER NAME_RECOGNIZE MESSAGE_ID_TEST
        DIALOG_REQUEST_ID_TEST PAYLOAD_SPEECH_RECOGNIZER CONTEXT_TEST =
      testEventWithDialogReqIdAndContext ∧
    buildJsonEventString NAMESPACE_SPEECH_RECOGNIZER NAME_RECOGNIZE MESSAGE_ID_TEST
        DIALOG_REQUEST_ID_TEST PAYLOAD_SPEECH_RECOGNIZER "" =
      testEventWithDialogReqIdNoContext ∧
    buildJsonEventString NAMESPACE_SPEECH_RECOGNIZER NAME_RECOGNIZE MESSAGE_ID_TEST
        "" PAYLOAD_SPEECH_RECOGNIZER "" =
      testEventWithoutDialogReqIdOrContext ∧
    buildJsonEventString NAMESPACE_SPEECH_RECOGNIZER NAME_RECOGNIZE MESSAGE_ID_TEST
        "" PAYLOAD_SPEECH_RECOGNIZER CONTEXT_TEST =
      testEventWithContextAndNoDialogReqId ∧
    (∀ seed n m : Nat, n ≠ m → messageIdAtCall seed n ≠ messageIdAtCall seed m) := by
  refine ⟨?_, ?_, rfl, rfl, rfl, rfl, messageIdAtCall_inj⟩
  · intro nsp en mid payload ctx
    simp [buildJsonEventString, String.append_assoc]
  · intro nsp en mid dlg payload
    simp [buildJsonEventString, String.append_assoc]

/-- Witness for C8's distinctness clause at a concrete input: the first two
generated message-ids differ. -/
theorem envelope_formatting_witness :
    (0 : Nat) ≠ 1 ∧ messageIdAtCall 0 0 ≠ messageIdAtCall 0 1 :=
  ⟨by decide, envelope_formatting.2.2.2.2.2.2 0 0 1 (by decide)⟩

end AvsDeviceSdk
